import Mathlib

/-!
Shallow embedding of `DrawingScoring.py` (category registry, AI-response
interpreter, scoring pipeline).

The program's own logic (`add_category`, `process_ai_response`,
`analyze_drawing`) is translated line by line.  Calls into the Python
standard library (`json.loads`, `str.strip`, `str.find`, `str.rfind`,
`str.lower`, `int(...)`, `str(...)`) are modelled by executable Lean
functions whose behaviour matches CPython on the fragment the program
exercises:

* JSON numbers are modelled as integers (the program only ever consumes the
  integer field `detail_count`; non-integral numerals are treated as
  unparsable by the model);
* `str.lower` is modelled as ASCII case folding;
* `int(str)` is modelled for optionally signed ASCII decimal literals with
  surrounding whitespace.

File contents, registry state and the external AI call are represented by
explicit state values (`StoreFile`, `AIOutcome`); Python exceptions are
represented by the `Except PyErr` monad, with the `try/except` clauses of
the source translated into explicit handling of exactly the exception
constructors they catch.
-/

set_option maxRecDepth 100000

namespace DrawingScoring

/-- Python values as produced by `json.loads`: null, booleans, numbers
(integral only, see the file comment), strings, lists and dicts.  Dicts are
kept as key/value lists in textual order; lookups take the last binding,
matching the last-wins behaviour of `json.loads` on duplicate keys. -/
inductive PyVal where
| null : PyVal
| bool (b : Bool) : PyVal
| int (n : Int) : PyVal
| str (s : String) : PyVal
| list (xs : List PyVal) : PyVal
| dict (kvs : List (String × PyVal)) : PyVal

/-- Python exception classes that can flow through the embedded code. -/
inductive PyErr where
| jsonDecodeError : PyErr
| keyError : PyErr
| valueError : PyErr
| typeError : PyErr
| attributeError : PyErr
deriving DecidableEq

/-- Whitespace characters of the JSON grammar (space, tab, newline, CR). -/
def jsonWsChars : List Char := [' ', '\t', '\n', '\r']

/-- Whitespace skipped by the JSON scanner. -/
def isJsonWs (c : Char) : Bool := jsonWsChars.contains c

/-- Whitespace characters stripped by Python `str.strip` (ASCII fragment:
additionally vertical tab and form feed). -/
def pyWsChars : List Char := [' ', '\t', '\n', '\r', '\x0b', '\x0c']

/-- Whitespace predicate of Python `str.strip`. -/
def isPyWs (c : Char) : Bool := pyWsChars.contains c

/-- Drop leading JSON whitespace. -/
def skipWs (cs : List Char) : List Char := cs.dropWhile isJsonWs

/-- Model of Python `str.strip()`: drop leading and trailing whitespace. -/
def pyTrim (cs : List Char) : List Char :=
  ((cs.dropWhile isPyWs).reverse.dropWhile isPyWs).reverse

/-- Model of Python `str.find` for a single character: index of the first
occurrence, `-1` if absent. -/
def pyFind : List Char → Char → Int
| [], _ => -1
| x :: xs, c =>
  if x == c then 0
  else if pyFind xs c < 0 then -1 else pyFind xs c + 1

/-- Model of Python `str.rfind` for a single character: index of the last
occurrence, `-1` if absent. -/
def pyRfind : List Char → Char → Int
| [], _ => -1
| x :: xs, c =>
  if 0 ≤ pyRfind xs c then pyRfind xs c + 1
  else if x == c then 0 else -1

/-- Numeric value of a list of ASCII digits. -/
def digitsVal (ds : List Char) : Nat :=
  ds.foldl (fun a c => 10 * a + (c.toNat - 48)) 0

/-- Value of one hexadecimal digit, if any. -/
def hexVal (c : Char) : Option Nat :=
  if c.isDigit then some (c.toNat - 48)
  else if 97 ≤ c.toNat ∧ c.toNat ≤ 102 then some (c.toNat - 87)
  else if 65 ≤ c.toNat ∧ c.toNat ≤ 70 then some (c.toNat - 55)
  else none

/-- Decode table of the single-character JSON string escapes. -/
def escTable : List (Char × Char) :=
  [('\x22', '\x22'), ('\x5c', '\x5c'), ('/', '/'), ('b', '\x08'),
   ('f', '\x0c'), ('n', '\n'), ('r', '\r'), ('t', '\t')]

/-- Single-character JSON string escapes. -/
def escChar (c : Char) : Option Char :=
  (escTable.find? (fun p => p.1 == c)).map (fun p => p.2)

/-- Scan a JSON string body (the opening quote already consumed),
accumulating decoded characters; raw control characters are rejected, as in
strict-mode `json.loads`. -/
def parseStrAux : List Char → List Char → Option (String × List Char)
| [], _ => none
| '\x5c' :: 'u' :: a :: b :: e :: d :: rest, acc =>
  match hexVal a, hexVal b, hexVal e, hexVal d with
  | some ha, some hb, some he, some hd =>
      parseStrAux rest (Char.ofNat (4096 * ha + 256 * hb + 16 * he + hd) :: acc)
  | _, _, _, _ => none
| '\x5c' :: e :: rest, acc =>
  match escChar e with
  | some c => parseStrAux rest (c :: acc)
  | none => none
| c :: rest, acc =>
  if c == '\x22' then some (String.mk acc.reverse, rest)
  else if c.toNat < 32 then none
  else parseStrAux rest (c :: acc)

/-- Scan an unsigned JSON integer numeral (no leading zeros); numerals
continuing with a fraction or exponent are treated as unparsable by this
integral model. -/
def parseNum : List Char → Option (Nat × List Char)
| '0' :: rest =>
  match rest with
  | c :: _ =>
    if c.isDigit || ['.', 'e', 'E'].contains c then none else some (0, rest)
  | [] => some (0, [])
| c :: rest =>
  if c.isDigit then
    match rest.dropWhile Char.isDigit with
    | e :: tail =>
      if ['.', 'e', 'E'].contains e then none
      else some (digitsVal (c :: rest.takeWhile Char.isDigit), e :: tail)
    | [] => some (digitsVal (c :: rest.takeWhile Char.isDigit), [])
  else none
| [] => none

mutual

/-- Scan one JSON value, fuel-bounded. -/
def parseVal : Nat → List Char → Option (PyVal × List Char)
| 0, _ => none
| fuel + 1, cs =>
  match skipWs cs with
  | '\x22' :: rest =>
    match parseStrAux rest [] with
    | some (s, rest2) => some (PyVal.str s, rest2)
    | none => none
  | 't' :: 'r' :: 'u' :: 'e' :: rest => some (PyVal.bool true, rest)
  | 'f' :: 'a' :: 'l' :: 's' :: 'e' :: rest => some (PyVal.bool false, rest)
  | 'n' :: 'u' :: 'l' :: 'l' :: rest => some (PyVal.null, rest)
  | '[' :: rest =>
    match parseArrItems fuel (skipWs rest) with
    | some (xs, rest2) => some (PyVal.list xs, rest2)
    | none => none
  | '\x7b' :: rest =>
    match parseObjItems fuel (skipWs rest) with
    | some (kvs, rest2) => some (PyVal.dict kvs, rest2)
    | none => none
  | '-' :: rest =>
    match parseNum rest with
    | some (n, rest2) => some (PyVal.int (-(n : Int)), rest2)
    | none => none
  | other =>
    match parseNum other with
    | some (n, rest2) => some (PyVal.int (n : Int), rest2)
    | none => none

/-- Scan array items, positioned at the first element or the closing
bracket. -/
def parseArrItems : Nat → List Char → Option (List PyVal × List Char)
| 0, _ => none
| fuel + 1, cs =>
  match cs with
  | ']' :: rest => some ([], rest)
  | _ =>
    match parseVal fuel cs with
    | none => none
    | some (v, rest) =>
      match skipWs rest with
      | ',' :: rest2 =>
        match parseArrMore fuel (skipWs rest2) with
        | some (xs, rest3) => some (v :: xs, rest3)
        | none => none
      | ']' :: rest2 => some ([v], rest2)
      | _ => none

/-- Scan array items after a comma: a further element is mandatory. -/
def parseArrMore : Nat → List Char → Option (List PyVal × List Char)
| 0, _ => none
| fuel + 1, cs =>
  match parseVal fuel cs with
  | none => none
  | some (v, rest) =>
    match skipWs rest with
    | ',' :: rest2 =>
      match parseArrMore fuel (skipWs rest2) with
      | some (xs, rest3) => some (v :: xs, rest3)
      | none => none
    | ']' :: rest2 => some ([v], rest2)
    | _ => none

/-- Scan object members, positioned at the first key or the closing
brace. -/
def parseObjItems : Nat → List Char → Option (List (String × PyVal) × List Char)
| 0, _ => none
| fuel + 1, cs =>
  match cs with
  | '\x7d' :: rest => some ([], rest)
  | _ => parseObjPair fuel cs

/-- Scan one `key : value` object member and any members after it. -/
def parseObjPair : Nat → List Char → Option (List (String × PyVal) × List Char)
| 0, _ => none
| fuel + 1, cs =>
  match cs with
  | '\x22' :: rest =>
    match parseStrAux rest [] with
    | none => none
    | some (k, rest2) =>
      match skipWs rest2 with
      | ':' :: rest3 =>
        match parseVal fuel rest3 with
        | none => none
        | some (v, rest4) =>
          match skipWs rest4 with
          | ',' :: rest5 =>
            match parseObjPair fuel (skipWs rest5) with
            | some (kvs, rest6) => some ((k, v) :: kvs, rest6)
            | none => none
          | '\x7d' :: rest5 => some ([(k, v)], rest5)
          | _ => none
      | _ => none
  | _ => none

end

/-- Model of `json.loads`: scan one value and require that nothing but
whitespace follows.  The fuel bound exceeds the number of scanner steps any
input of this length can need. -/
def parseTop (cs : List Char) : Option PyVal :=
  match parseVal (4 * cs.length + 4) cs with
  | some (v, rest) => if skipWs rest == [] then some v else none
  | none => none

/-- Model of Python `str.lower` on one character (ASCII case folding). -/
def pyCharLower (c : Char) : Char :=
  if 65 ≤ c.toNat ∧ c.toNat ≤ 90 then Char.ofNat (c.toNat + 32) else c

/-- Model of Python `str.lower` (ASCII case folding). -/
def pyLower (s : String) : String := String.mk (s.data.map pyCharLower)

/-- Model of `dict.get(k, d)` on a dict built by `json.loads`: the last
binding of the key wins, the default is returned when the key is absent. -/
def dictGetD (kvs : List (String × PyVal)) (k : String) (d : PyVal) : PyVal :=
  match kvs.reverse.find? (fun p => p.1 == k) with
  | some p => p.2
  | none => d

/-- State of the registry file `art_categories.json`: absent, present but
not syntactically valid JSON, or holding a JSON document.  `json.load` and
`json.dump` are modelled at the document level. -/
inductive StoreFile where
| missing : StoreFile
| invalidText : StoreFile
| json (j : PyVal) : StoreFile

/-- Loading step of `add_category` (source lines 34-39): a missing file
raises `FileNotFoundError` and invalid JSON raises `json.JSONDecodeError`,
both caught and turned into an empty list; on a parsed document the code
runs `data.get("categories", [])`, which raises `AttributeError` when the
document is not a dict. -/
def readCategories : StoreFile → Except PyErr PyVal
| StoreFile.missing => Except.ok (PyVal.list [])
| StoreFile.invalidText => Except.ok (PyVal.list [])
| StoreFile.json (PyVal.dict kvs) => Except.ok (dictGetD kvs ("categories") (PyVal.list []))
| StoreFile.json _ => Except.error PyErr.attributeError

/-- The generator `any(category_name_lower == cat.lower() for cat in ...)`
over an already materialised element list: stops at the first match;
`cat.lower()` on a non-string element raises `AttributeError`. -/
def anyLower (lower : String) : List PyVal → Except PyErr Bool
| [] => Except.ok false
| PyVal.str s :: xs => if lower == pyLower s then Except.ok true else anyLower lower xs
| _ :: _ => Except.error PyErr.attributeError

/-- The same generator including the iteration protocol of its source
object (source line 42): lists yield elements, strings yield one-character
strings, dicts yield keys, anything else raises `TypeError`. -/
def anyMatch (lower : String) : PyVal → Except PyErr Bool
| PyVal.list xs => anyLower lower xs
| PyVal.str s => anyLower lower (s.data.map (fun c => PyVal.str (String.mk [c])))
| PyVal.dict kvs => anyLower lower (kvs.map (fun p => PyVal.str p.1))
| _ => Except.error PyErr.typeError

/-- Result of `add_category`: the returned pair `(canonical, score)`, plus
the registry file after the call and how many file writes happened. -/
structure AddOut where
  canonical : String
  score : Int
  store : StoreFile
  writes : Nat

/-- Embedding of `add_category` (source lines 19-50).  The new-category
branch appends the lower-cased name and rewrites the whole file as
`{"categories": [...]}`; `categories.append` on a non-list raises
`AttributeError` before any write. -/
def add_category (category_name : String) (st : StoreFile) : Except PyErr AddOut :=
  match readCategories st with
  | Except.error e => Except.error e
  | Except.ok cats =>
    match anyMatch (pyLower category_name) cats with
    | Except.error e => Except.error e
    | Except.ok true => Except.ok ⟨pyLower category_name, 1, st, 0⟩
    | Except.ok false =>
      match cats with
      | PyVal.list xs =>
          Except.ok ⟨pyLower category_name, 10,
            StoreFile.json (PyVal.dict
              [("categories", PyVal.list (xs ++ [PyVal.str (pyLower category_name)]))]), 1⟩
      | _ => Except.error PyErr.attributeError

/-- Is this a nonempty all-digit character list? -/
def pyDigits (ds : List Char) : Bool := decide (ds ≠ []) && ds.all Char.isDigit

/-- Model of Python `int(s)` on a string: optional surrounding whitespace,
optional sign, ASCII decimal digits; anything else is a `ValueError`
(returned as `none`). -/
def pyIntOfStr (s : String) : Option Int :=
  match pyTrim s.data with
  | '-' :: ds => if pyDigits ds then some (-(digitsVal ds : Int)) else none
  | '+' :: ds => if pyDigits ds then some ((digitsVal ds : Int)) else none
  | ds => if pyDigits ds then some ((digitsVal ds : Int)) else none

/-- Model of Python `int(...)` applied to a value coming from
`json.loads`: ints pass through, bools become 0/1, strings are parsed
(`ValueError` on failure), and `None`/lists/dicts raise `TypeError`. -/
def pyInt : PyVal → Except PyErr Int
| PyVal.int n => Except.ok n
| PyVal.bool b => Except.ok (if b then 1 else 0)
| PyVal.str s =>
  match pyIntOfStr s with
  | some n => Except.ok n
  | none => Except.error PyErr.valueError
| _ => Except.error PyErr.typeError

mutual

/-- Model of Python `repr` on values coming from `json.loads` (used by
`str(...)` on containers); string escaping inside `repr` is elided. -/
def pyRepr : PyVal → String
| PyVal.null => "None"
| PyVal.bool true => "True"
| PyVal.bool false => "False"
| PyVal.int n => toString n
| PyVal.str s => "\x27" ++ s ++ "\x27"
| PyVal.list xs => "[" ++ pyReprItems xs ++ "]"
| PyVal.dict kvs => "\x7b" ++ pyReprPairs kvs ++ "\x7d"

/-- Comma-separated `repr` of list elements. -/
def pyReprItems : List PyVal → String
| [] => ""
| [x] => pyRepr x
| x :: y :: xs => pyRepr x ++ ", " ++ pyReprItems (y :: xs)

/-- Comma-separated `repr` of dict members. -/
def pyReprPairs : List (String × PyVal) → String
| [] => ""
| [(k, v)] => "\x27" ++ k ++ "\x27: " ++ pyRepr v
| (k, v) :: p :: xs => "\x27" ++ k ++ "\x27: " ++ pyRepr v ++ ", " ++ pyReprPairs (p :: xs)

end

/-- Model of Python `str(...)` on values coming from `json.loads`. -/
def pyStr : PyVal → String
| PyVal.str s => s
| v => pyRepr v

/-- The fail-soft fallback tuple of the interpreter and the pipeline. -/
def sentinel : Int × String × Int × String := (0, "unknown", 0, "unknown")

/-- JSON extraction step of `process_ai_response` (source lines 106-112):
strip the input, locate the first brace and one past the last closing
brace, and parse the slice between them.  Note `end_idx` is
`rfind + 1 = 0` when no closing brace exists, so the code's
`end_idx != -1` test is vacuous and the slice is empty. -/
def extractJson (s : String) : Option PyVal :=
  let cs := pyTrim s.data
  let start := pyFind cs '\x7b'
  let stop := pyRfind cs '\x7d' + 1
  if start != -1 && stop != -1 then
    parseTop ((cs.drop start.toNat).take (stop - start).toNat)
  else none

/-- Body of `process_ai_response` after a successful `json.loads` (source
lines 117-129): resolve the category, stringify the name, coerce the
detail count, and combine the scores.  The surrounding `except` clause
catches only `json.JSONDecodeError`, `KeyError` and `ValueError`, so a
`ValueError` from `int(...)` yields the sentinel (with any registry write
already persisted), while `TypeError`/`AttributeError` escape. -/
def processParsed (analysis : PyVal) (st : StoreFile) :
    Except PyErr (Int × String × Int × String) × StoreFile :=
  match analysis with
  | PyVal.dict kvs =>
    match dictGetD kvs ("detected_category") (PyVal.str ("unknown")) with
    | PyVal.str category_name =>
      match add_category category_name st with
      | Except.error e => (Except.error e, st)
      | Except.ok r =>
        match pyInt (dictGetD kvs ("detail_count") (PyVal.int 0)) with
        | Except.ok d =>
            (Except.ok (r.score + d, r.canonical, d,
              pyStr (dictGetD kvs ("Name") (PyVal.str ("unknown")))), r.store)
        | Except.error PyErr.valueError => (Except.ok sentinel, r.store)
        | Except.error e => (Except.error e, r.store)
    | _ => (Except.error PyErr.attributeError, st)
  | _ => (Except.error PyErr.attributeError, st)

/-- Embedding of `process_ai_response` (source lines 102-134).  The two
sentinel paths of the source — no opening brace found, and
`json.JSONDecodeError` caught — both return `(sentinel, st)` and are
merged through `extractJson` returning `none`. -/
def process_ai_response (response_content : String) (st : StoreFile) :
    Except PyErr (Int × String × Int × String) × StoreFile :=
  match extractJson response_content with
  | none => (Except.ok sentinel, st)
  | some analysis => processParsed analysis st

/-- Outcome of the file reads, request construction and service call of
`analyze_drawing` (source lines 139-164), which are external I/O: either
some exception was raised, or the service produced a message content
(`none` models a null content field). -/
inductive AIOutcome where
| raised : AIOutcome
| content (s : Option String) : AIOutcome

/-- Embedding of `analyze_drawing` (source lines 136-176).  The last
component counts invocations of `process_ai_response`.  The `except
Exception` clause catches everything — including interpreter errors — and
returns the sentinel. -/
def analyze_drawing (outcome : AIOutcome) (st : StoreFile) :
    (Int × String × Int × String) × StoreFile × Nat :=
  match outcome with
  | AIOutcome.raised => (sentinel, st, 0)
  | AIOutcome.content none => (sentinel, st, 0)
  | AIOutcome.content (some s) =>
    if pyTrim s.data == [] then (sentinel, st, 0)
    else
      match process_ai_response s st with
      | (Except.ok t, st2) => (t, st2, 1)
      | (Except.error _, st2) => (sentinel, st2, 1)

/-- Are all elements of a loaded category list strings? -/
def catsAllStr : List PyVal → Bool
| [] => true
| PyVal.str _ :: xs => catsAllStr xs
| _ :: _ => false

/-- A registry file state on which `add_category` cannot raise: the file is
absent, unparsable, or a JSON object whose `categories` entry (defaulting
to the empty list) is a list of strings. -/
def storeOk : StoreFile → Bool
| StoreFile.missing => true
| StoreFile.invalidText => true
| StoreFile.json (PyVal.dict kvs) =>
  match dictGetD kvs ("categories") (PyVal.list []) with
  | PyVal.list xs => catsAllStr xs
  | _ => false
| StoreFile.json _ => false

/-- Field kinds on which the interpreter body cannot raise an uncaught
exception: `detected_category` (defaulted) is a string and `int(...)` of
`detail_count` (defaulted) does not raise `TypeError`. -/
def fieldKindsOk (kvs : List (String × PyVal)) : Bool :=
  (match dictGetD kvs ("detected_category") (PyVal.str ("unknown")) with
   | PyVal.str _ => true
   | _ => false) &&
  (match pyInt (dictGetD kvs ("detail_count") (PyVal.int 0)) with
   | Except.error PyErr.typeError => false
   | _ => true)

/-! ### Helper lemmas -/

theorem toNat_ofNat_valid (n : Nat) (h : Nat.isValidChar n) : (Char.ofNat n).toNat = n := by
  simp [Char.ofNat, h, Char.ofNatAux, Char.toNat, UInt32.toNat, BitVec.toNat_ofNatLt]

theorem pyCharLower_idem (c : Char) : pyCharLower (pyCharLower c) = pyCharLower c := by
  unfold pyCharLower
  by_cases h : 65 ≤ c.toNat ∧ c.toNat ≤ 90
  · have hv : (Char.ofNat (c.toNat + 32)).toNat = c.toNat + 32 := by
      apply toNat_ofNat_valid
      left
      omega
    rw [if_pos h, hv, if_neg]
    omega
  · rw [if_neg h, if_neg h]

theorem pyLower_idem (s : String) : pyLower (pyLower s) = pyLower s := by
  unfold pyLower
  simp only [List.map_map]
  congr 1
  apply List.map_congr_left
  intro c _
  exact pyCharLower_idem c

theorem pyFind_eq_neg_one {cs : List Char} {c : Char} (h : c ∉ cs) : pyFind cs c = -1 := by
  induction cs with
  | nil => rfl
  | cons x xs ih =>
    have hx : (x == c) = false := by
      simp only [beq_eq_false_iff_ne]
      intro he
      exact h (he ▸ List.mem_cons_self x xs)
    have ht : pyFind xs c = -1 := ih (fun hm => h (List.mem_cons_of_mem x hm))
    simp [pyFind, hx, ht]

theorem pyRfind_eq_neg_one {cs : List Char} {c : Char} (h : c ∉ cs) : pyRfind cs c = -1 := by
  induction cs with
  | nil => rfl
  | cons x xs ih =>
    have hx : (x == c) = false := by
      simp only [beq_eq_false_iff_ne]
      intro he
      exact h (he ▸ List.mem_cons_self x xs)
    have ht : pyRfind xs c = -1 := ih (fun hm => h (List.mem_cons_of_mem x hm))
    simp [pyRfind, hx, ht]

theorem mem_of_mem_pyTrim {cs : List Char} {c : Char} (h : c ∈ pyTrim cs) : c ∈ cs := by
  unfold pyTrim at h
  rw [List.mem_reverse] at h
  have h2 := (List.dropWhile_sublist isPyWs).mem h
  rw [List.mem_reverse] at h2
  exact (List.dropWhile_sublist isPyWs).mem h2

theorem parseTop_nil : parseTop [] = none := rfl

theorem pyFind_lb (cs : List Char) (c : Char) : pyFind cs c = -1 ∨ 0 ≤ pyFind cs c := by
  induction cs with
  | nil => left; rfl
  | cons x xs ih =>
    by_cases hx : (x == c) = true
    · right
      simp [pyFind, hx]
    · rw [Bool.not_eq_true] at hx
      rcases ih with h1 | h1
      · left
        simp [pyFind, hx, h1]
      · right
        have h2 : ¬ pyFind xs c < 0 := by omega
        simp [pyFind, hx, h2]
        omega

theorem extractJson_eq_none {s : String}
    (h : ('\x7b' ∉ s.data) ∨ ('\x7d' ∉ s.data)) : extractJson s = none := by
  unfold extractJson
  rcases h with h | h
  · have hf : pyFind (pyTrim s.data) '\x7b' = -1 :=
      pyFind_eq_neg_one (fun hm => h (mem_of_mem_pyTrim hm))
    simp [hf]
  · have hr : pyRfind (pyTrim s.data) '\x7d' = -1 :=
      pyRfind_eq_neg_one (fun hm => h (mem_of_mem_pyTrim hm))
    rcases pyFind_lb (pyTrim s.data) '\x7b' with hf | hf
    · simp [hf]
    · simp only [hr]
      have h0 : (-1 + 1 - pyFind (pyTrim s.data) '\x7b').toNat = 0 := by omega
      rw [h0, List.take_zero]
      simp [parseTop_nil]

theorem readCategories_of_storeOk {st : StoreFile} (h : storeOk st = true) :
    ∃ xs, readCategories st = Except.ok (PyVal.list xs) ∧ catsAllStr xs = true := by
  cases st with
  | missing => exact ⟨[], rfl, rfl⟩
  | invalidText => exact ⟨[], rfl, rfl⟩
  | json j =>
    cases j with
    | dict kvs =>
      simp only [storeOk] at h
      cases hd : dictGetD kvs ("categories") (PyVal.list []) with
      | list xs =>
        rw [hd] at h
        exact ⟨xs, by simp [readCategories, hd], h⟩
      | null => rw [hd] at h; cases h
      | bool b => rw [hd] at h; cases h
      | int n => rw [hd] at h; cases h
      | str s2 => rw [hd] at h; cases h
      | dict kvs2 => rw [hd] at h; cases h
    | null => simp [storeOk] at h
    | bool b => simp [storeOk] at h
    | int n => simp [storeOk] at h
    | str s2 => simp [storeOk] at h
    | list xs => simp [storeOk] at h

theorem anyLower_of_allStr {xs : List PyVal} (h : catsAllStr xs = true) (l : String) :
    anyLower l xs = Except.ok true ∨ anyLower l xs = Except.ok false := by
  induction xs with
  | nil => right; rfl
  | cons x xs ih =>
    cases x with
    | str s =>
      have h2 : catsAllStr xs = true := h
      cases hb : (l == pyLower s) with
      | true => left; simp [anyLower, hb]
      | false =>
        rcases ih h2 with h1 | h1
        · left; simp [anyLower, hb, h1]
        · right; simp [anyLower, hb, h1]
    | null => cases h
    | bool b => cases h
    | int n => cases h
    | list ys => cases h
    | dict kvs => cases h

theorem anyLower_append_of_false {l : String} {xs : List PyVal}
    (h : anyLower l xs = Except.ok false) (ys : List PyVal) :
    anyLower l (xs ++ ys) = anyLower l ys := by
  induction xs with
  | nil => rfl
  | cons x xs ih =>
    cases x with
    | str s =>
      cases hb : (l == pyLower s) with
      | true => simp [anyLower, hb] at h
      | false =>
        have h2 : anyLower l xs = Except.ok false := by
          simpa [anyLower, hb] using h
        rw [List.cons_append]
        simp only [anyLower, hb]
        simp only [Bool.false_eq_true, if_false]
        exact ih h2
    | null => exact Except.noConfusion h
    | bool b => exact Except.noConfusion h
    | int n => exact Except.noConfusion h
    | list ys2 => exact Except.noConfusion h
    | dict kvs => exact Except.noConfusion h

theorem add_category_spec (name : String) {st : StoreFile} (h : storeOk st = true) :
    ∃ xs, readCategories st = Except.ok (PyVal.list xs) ∧ catsAllStr xs = true ∧
      ((anyLower (pyLower name) xs = Except.ok true ∧
        add_category name st = Except.ok ⟨pyLower name, 1, st, 0⟩) ∨
       (anyLower (pyLower name) xs = Except.ok false ∧
        add_category name st = Except.ok ⟨pyLower name, 10,
          StoreFile.json (PyVal.dict [("categories",
            PyVal.list (xs ++ [PyVal.str (pyLower name)]))]), 1⟩)) := by
  obtain ⟨xs, hr, hall⟩ := readCategories_of_storeOk h
  refine ⟨xs, hr, hall, ?_⟩
  rcases anyLower_of_allStr hall (pyLower name) with hy | hy
  · left
    exact ⟨hy, by simp [add_category, hr, anyMatch, hy]⟩
  · right
    exact ⟨hy, by simp [add_category, hr, anyMatch, hy]⟩

theorem pyInt_error_cases {v : PyVal} {e : PyErr} (h : pyInt v = Except.error e) :
    e = PyErr.valueError ∨ e = PyErr.typeError := by
  cases v with
  | null => injection h with h2; right; exact h2.symm
  | bool b => exact Except.noConfusion h
  | int n => exact Except.noConfusion h
  | str s =>
    simp only [pyInt] at h
    cases hp : pyIntOfStr s with
    | some n => rw [hp] at h; exact Except.noConfusion h
    | none => rw [hp] at h; injection h with h2; left; exact h2.symm
  | list xs => injection h with h2; right; exact h2.symm
  | dict kvs => injection h with h2; right; exact h2.symm

/-! ### Claim theorems -/

/-- C1 counterexample: on the input `{"detail_count": null}` the
interpreter raises an uncaught `TypeError` — `int(None)` is not covered by
the `except (json.JSONDecodeError, KeyError, ValueError)` clause — so
`process_ai_response` does not return a tuple for every input, refuting
the claim that it never raises an unhandled error. -/
theorem process_null_detail_count_raises :
    (process_ai_response ("\x7b\"detail_count\": null\x7d") StoreFile.missing).1
      = Except.error PyErr.typeError := rfl

/-- C1 (amended): over a well-formed registry file, `process_ai_response`
returns a well-formed tuple — the sentinel when no structured document can
be extracted, and a successful tuple when the extracted document is an
object whose `detected_category` (after defaulting) is a string and whose
`detail_count` (after defaulting) does not make `int(...)` raise
`TypeError`; outside these kinds it can raise `TypeError` or
`AttributeError`. -/
theorem process_total_when_field_kinds_ok (s : String) (st : StoreFile)
    (hst : storeOk st = true) :
    (extractJson s = none → process_ai_response s st = (Except.ok sentinel, st)) ∧
    (∀ kvs, extractJson s = some (PyVal.dict kvs) → fieldKindsOk kvs = true →
      ∃ t st2, process_ai_response s st = (Except.ok t, st2)) := by
  constructor
  · intro hx
    simp [process_ai_response, hx]
  · intro kvs hx hk
    simp only [process_ai_response, hx]
    simp only [fieldKindsOk, Bool.and_eq_true] at hk
    obtain ⟨hk1, hk2⟩ := hk
    cases hcat : dictGetD kvs ("detected_category") (PyVal.str ("unknown")) with
    | str cname =>
      obtain ⟨xs, hr, hall, hcase⟩ := add_category_spec cname hst
      have hadd : ∃ r, add_category cname st = Except.ok r := by
        rcases hcase with ⟨_, ha⟩ | ⟨_, ha⟩
        · exact ⟨_, ha⟩
        · exact ⟨_, ha⟩
      obtain ⟨r, ha⟩ := hadd
      cases hd : pyInt (dictGetD kvs ("detail_count") (PyVal.int 0)) with
      | ok d =>
        exact ⟨(r.score + d, r.canonical, d,
            pyStr (dictGetD kvs ("Name") (PyVal.str ("unknown")))), r.store,
          by simp [processParsed, hcat, ha, hd]⟩
      | error e =>
        rcases pyInt_error_cases hd with he | he
        · subst he
          exact ⟨sentinel, r.store, by simp [processParsed, hcat, ha, hd]⟩
        · subst he
          rw [hd] at hk2
          cases hk2
    | null => rw [hcat] at hk1; cases hk1
    | bool b => rw [hcat] at hk1; cases hk1
    | int n => rw [hcat] at hk1; cases hk1
    | list xs => rw [hcat] at hk1; cases hk1
    | dict kvs2 => rw [hcat] at hk1; cases hk1

/-- C1 witness: the amended theorem applied to a concrete well-kinded
input over the empty registry. -/
theorem process_total_witness :
    ∃ t st2, process_ai_response ("\x7b\"detected_category\":\"c\",\"detail_count\":4\x7d")
      StoreFile.missing = (Except.ok t, st2) :=
  (process_total_when_field_kinds_ok
      ("\x7b\"detected_category\":\"c\",\"detail_count\":4\x7d") StoreFile.missing rfl).2
    [("detected_category", PyVal.str ("c")), ("detail_count", PyVal.int 4)] rfl rfl

/-- C2: on the spec's example input, the first call (empty registry)
returns `(14, "landscape", 4, "Sun Picture")` and writes the canonical
category; the repeat call on the resulting registry returns
`(5, "landscape", 4, "Sun Picture")` and leaves the registry unchanged. -/
theorem process_sun_picture_first_and_repeat :
    process_ai_response
      ("blah \x7b\"Name\":\"Sun Picture\",\"detected_category\":\"Landscape\",\"detail_count\":4\x7d blah")
      StoreFile.missing
      = (Except.ok (14, ("landscape"), 4, ("Sun Picture")),
         StoreFile.json (PyVal.dict [("categories", PyVal.list [PyVal.str ("landscape")])])) ∧
    process_ai_response
      ("blah \x7b\"Name\":\"Sun Picture\",\"detected_category\":\"Landscape\",\"detail_count\":4\x7d blah")
      (StoreFile.json (PyVal.dict [("categories", PyVal.list [PyVal.str ("landscape")])]))
      = (Except.ok (5, ("landscape"), 4, ("Sun Picture")),
         StoreFile.json (PyVal.dict [("categories", PyVal.list [PyVal.str ("landscape")])])) :=
  ⟨rfl, rfl⟩

/-- C3: when `name` is not yet present in the loaded category list, the
first call appends exactly its lower-cased canonical form with one file
write and score 10, and a later call with any case-variant of the name
returns score 1 with zero writes and an unchanged store. -/
theorem add_category_new_then_case_variant (name variant : String) (st : StoreFile)
    (xs : List PyVal)
    (hread : readCategories st = Except.ok (PyVal.list xs))
    (hfresh : anyLower (pyLower name) xs = Except.ok false)
    (hvar : pyLower variant = pyLower name) :
    add_category name st = Except.ok ⟨pyLower name, 10,
      StoreFile.json (PyVal.dict [("categories",
        PyVal.list (xs ++ [PyVal.str (pyLower name)]))]), 1⟩ ∧
    add_category variant (StoreFile.json (PyVal.dict [("categories",
        PyVal.list (xs ++ [PyVal.str (pyLower name)]))]))
      = Except.ok ⟨pyLower name, 1,
          StoreFile.json (PyVal.dict [("categories",
            PyVal.list (xs ++ [PyVal.str (pyLower name)]))]), 0⟩ := by
  have hany : anyLower (pyLower name) (xs ++ [PyVal.str (pyLower name)])
      = Except.ok true := by
    rw [anyLower_append_of_false hfresh]
    simp [anyLower, pyLower_idem]
  constructor
  · simp [add_category, hread, anyMatch, hfresh]
  · have hread2 : readCategories (StoreFile.json (PyVal.dict [("categories",
        PyVal.list (xs ++ [PyVal.str (pyLower name)]))]))
        = Except.ok (PyVal.list (xs ++ [PyVal.str (pyLower name)])) := by
      simp [readCategories, dictGetD]
    simp [add_category, hread2, anyMatch, hvar, hany]

/-- C3 witness: fresh category `Landscape` over the empty registry,
followed by the case-variant `LANDSCAPE`. -/
theorem add_category_variant_witness :
    add_category ("Landscape") StoreFile.missing = Except.ok ⟨("landscape"), 10,
      StoreFile.json (PyVal.dict [("categories", PyVal.list [PyVal.str ("landscape")])]), 1⟩ ∧
    add_category ("LANDSCAPE")
      (StoreFile.json (PyVal.dict [("categories", PyVal.list [PyVal.str ("landscape")])]))
      = Except.ok ⟨("landscape"), 1,
          StoreFile.json (PyVal.dict [("categories", PyVal.list [PyVal.str ("landscape")])]), 0⟩ :=
  add_category_new_then_case_variant ("Landscape") ("LANDSCAPE") StoreFile.missing [] rfl rfl rfl

/-- C4 counterexample: a registry file holding the syntactically valid
JSON document `[]` — well-formed JSON of invalid structure — makes
`add_category` raise `AttributeError` (from `data.get`) instead of being
treated as an empty registry. -/
theorem add_category_array_store_raises :
    add_category ("x") (StoreFile.json (PyVal.list []))
      = Except.error PyErr.attributeError := rfl

/-- C4 (amended): only the two read failures the code catches — missing
file (`FileNotFoundError`) and syntactically invalid JSON
(`json.JSONDecodeError`) — degrade to the empty registry, and on both the
call proceeds identically; a parsed document of the wrong structure
instead raises. -/
theorem add_category_missing_or_invalid_as_empty (name : String) :
    add_category name StoreFile.missing = Except.ok ⟨pyLower name, 10,
      StoreFile.json (PyVal.dict [("categories",
        PyVal.list [PyVal.str (pyLower name)])]), 1⟩ ∧
    add_category name StoreFile.invalidText = add_category name StoreFile.missing :=
  ⟨rfl, rfl⟩

/-- C5 counterexample: on `{"detected_category":"c","detail_count":-4}`
the interpreter returns detail score `-4`, which is negative — the
coercion passes negative values through rather than clamping or falling
back to 0. -/
theorem process_negative_detail_score :
    (process_ai_response ("\x7b\"detected_category\":\"c\",\"detail_count\":-4\x7d")
        StoreFile.missing).1
      = Except.ok (6, ("c"), -4, ("unknown")) ∧ (-4 : Int) < 0 :=
  ⟨rfl, by decide⟩

/-- C5 (amended): for every successfully parsed analysis whose
`detail_count` coerces to an integer `d` (possibly negative), the category
score is 1 or 10 and the returned total is exactly the category score plus
`d`, with `d` returned as the detail score. -/
theorem process_score_formula (s : String) (st : StoreFile)
    (kvs : List (String × PyVal)) (cname : String) (d : Int)
    (hst : storeOk st = true)
    (hx : extractJson s = some (PyVal.dict kvs))
    (hcat : dictGetD kvs ("detected_category") (PyVal.str ("unknown")) = PyVal.str cname)
    (hd : pyInt (dictGetD kvs ("detail_count") (PyVal.int 0)) = Except.ok d) :
    ∃ score st2, (score = (1 : Int) ∨ score = 10) ∧
      process_ai_response s st
        = (Except.ok (score + d, pyLower cname, d,
            pyStr (dictGetD kvs ("Name") (PyVal.str ("unknown")))), st2) := by
  obtain ⟨xs, hr, hall, hcase⟩ := add_category_spec cname hst
  rcases hcase with ⟨hy, ha⟩ | ⟨hy, ha⟩
  · exact ⟨1, st, Or.inl rfl,
      by simp [process_ai_response, hx, processParsed, hcat, ha, hd]⟩
  · exact ⟨10, StoreFile.json (PyVal.dict [("categories",
        PyVal.list (xs ++ [PyVal.str (pyLower cname)]))]), Or.inr rfl,
      by simp [process_ai_response, hx, processParsed, hcat, ha, hd]⟩

/-- C5 witness: the amended theorem applied to a concrete parsed analysis
over the empty registry. -/
theorem process_score_formula_witness :
    ∃ score st2, (score = (1 : Int) ∨ score = 10) ∧
      process_ai_response ("\x7b\"detected_category\":\"c\",\"detail_count\":4\x7d")
        StoreFile.missing
        = (Except.ok (score + 4, pyLower ("c"), 4,
            pyStr (dictGetD [("detected_category", PyVal.str ("c")),
              ("detail_count", PyVal.int 4)] ("Name") (PyVal.str ("unknown")))), st2) :=
  process_score_formula ("\x7b\"detected_category\":\"c\",\"detail_count\":4\x7d")
    StoreFile.missing
    [("detected_category", PyVal.str ("c")), ("detail_count", PyVal.int 4)]
    ("c") 4 rfl rfl rfl rfl

/-- C6: whenever the input lacks an opening or a closing brace,
`process_ai_response` returns exactly the sentinel and leaves the registry
untouched (no brace: the guard fails; no closing brace: the slice is empty
and parsing it fails). -/
theorem process_sentinel_without_brace (s : String) (st : StoreFile)
    (h : ('\x7b' ∉ s.data) ∨ ('\x7d' ∉ s.data)) :
    process_ai_response s st = (Except.ok sentinel, st) := by
  simp [process_ai_response, extractJson_eq_none h]

/-- C6 witness: the theorem applied to a brace-free input. -/
theorem process_sentinel_without_brace_witness :
    process_ai_response ("hello") StoreFile.missing = (Except.ok sentinel, StoreFile.missing) :=
  process_sentinel_without_brace ("hello") StoreFile.missing (Or.inl (by decide))

/-- C7: on an empty, whitespace-only or null model output, the pipeline
short-circuits to the sentinel with zero invocations of the interpreter
(the invocation count is the third component). -/
theorem analyze_blank_response_skips_interpreter (s : String) (st : StoreFile)
    (h : pyTrim s.data = []) :
    analyze_drawing (AIOutcome.content (some s)) st = (sentinel, st, 0) ∧
    analyze_drawing (AIOutcome.content none) st = (sentinel, st, 0) := by
  constructor
  · simp [analyze_drawing, h]
  · rfl

/-- C7 witness: the theorem applied to a whitespace-only response. -/
theorem analyze_blank_response_witness :
    analyze_drawing (AIOutcome.content (some ("  "))) StoreFile.missing
      = (sentinel, StoreFile.missing, 0) :=
  (analyze_blank_response_skips_interpreter ("  ") StoreFile.missing rfl).1

/-- C8: whenever the file reads or the service call raise, the pipeline
catches the exception and returns the sentinel; `analyze_drawing` is a
total function into plain tuples (its type has no error component), so no
exception ever propagates to its caller. -/
theorem analyze_exception_yields_sentinel (st : StoreFile) :
    analyze_drawing AIOutcome.raised st = (sentinel, st, 0) := rfl

/-- C9: whenever a call to `add_category` performs its single file write,
reloading the written store yields exactly the previously stored names
plus the new canonical name — the persistence format round-trips. -/
theorem add_category_write_roundtrip (name : String) (st : StoreFile) (r : AddOut)
    (h : add_category name st = Except.ok r) (hw : r.writes = 1) :
    ∃ xs, readCategories st = Except.ok (PyVal.list xs) ∧
      readCategories r.store = Except.ok (PyVal.list (xs ++ [PyVal.str (pyLower name)])) := by
  unfold add_category at h
  split at h
  · exact Except.noConfusion h
  · rename_i cats hc
    split at h
    · exact Except.noConfusion h
    · injection h with h2
      rw [← h2] at hw
      simp at hw
    · split at h
      · injection h with h2
        refine ⟨_, hc, ?_⟩
        rw [← h2]
        simp [readCategories, dictGetD]
      · exact Except.noConfusion h

/-- C9 witness: the theorem applied to the write performed by
`add_category "x"` on the empty registry. -/
theorem add_category_write_roundtrip_witness :
    ∃ xs, readCategories StoreFile.missing = Except.ok (PyVal.list xs) ∧
      readCategories (StoreFile.json (PyVal.dict [("categories",
        PyVal.list [PyVal.str ("x")])]))
        = Except.ok (PyVal.list (xs ++ [PyVal.str (pyLower ("x"))])) :=
  add_category_write_roundtrip ("x") StoreFile.missing
    ⟨("x"), 10, StoreFile.json (PyVal.dict [("categories", PyVal.list [PyVal.str ("x")])]), 1⟩
    rfl rfl

/-- C10: a failed interpretation is not atomic with respect to the
registry: on `{"detected_category":"newcat","detail_count":"xx"}` the
category write happens first, then `int("xx")` raises the caught
`ValueError`, so the sentinel is returned while the registry file has
already been mutated away from its initial (empty) state. -/
theorem process_sentinel_despite_registry_write :
    process_ai_response ("\x7b\"detected_category\":\"newcat\",\"detail_count\":\"xx\"\x7d")
      StoreFile.missing
      = (Except.ok sentinel,
         StoreFile.json (PyVal.dict [("categories", PyVal.list [PyVal.str ("newcat")])])) ∧
    StoreFile.json (PyVal.dict [("categories", PyVal.list [PyVal.str ("newcat")])])
      ≠ StoreFile.missing :=
  ⟨rfl, fun h => StoreFile.noConfusion h⟩

end DrawingScoring
